import Mathlib

/-!
Shallow embedding of the engagement core of the meteor_api backend
(src/user_side): the like toggle, favorites, watch history, comments, the
anonymous-session tracker, and the denormalized counters these operations
maintain.  Every definition mirrors one function or code path of the source
(views.py, serializers.py, mixins.py, models.py); theorems settle the
specification claims about those code paths.  Persistence is modelled as
explicit state passing over lists of rows; `F('<field>') + d` column updates
are modelled as pointwise deltas on the stored counter functions.
-/

namespace Meteor

/-- An engagement actor: a registered user or an anonymous session (the
mutually exclusive `user` / `anonymous_session` foreign keys on the
engagement models). -/
inductive Actor where
  | user (id : Nat)
  | session (id : Nat)
deriving DecidableEq

/-- An engagement target: an anime or an episode (the mutually exclusive
`anime` / `episode` foreign keys on `Like`). -/
inductive Target where
  | anime (id : Nat)
  | episode (id : Nat)
deriving DecidableEq

/-- One row of the `Like` table (models.py:266-308): the actor, the target
(anime xor episode), and the `is_like` flag. -/
structure LikeRow where
  actor : Actor
  target : Target
  is_like : Bool
deriving DecidableEq

/-- `Like.objects.filter(**lookup_filter).first()` in `LikeToggleView.post`
(views.py:603): the `is_like` value of the first stored row for this
(actor, target). -/
def findLike (a : Actor) (t : Target) : List LikeRow → Option Bool
  | [] => none
  | r :: rs => if r.actor = a ∧ r.target = t then some r.is_like else findLike a t rs

/-- `existing_like.delete()` (views.py:607): removes the row `findLike`
found. -/
def deleteLike (a : Actor) (t : Target) : List LikeRow → List LikeRow
  | [] => []
  | r :: rs => if r.actor = a ∧ r.target = t then rs else r :: deleteLike a t rs

/-- `existing_like.is_like = is_like; existing_like.save()`
(views.py:626-627): rewrites the `is_like` field of the row `findLike`
found. -/
def flipLike (a : Actor) (t : Target) (w : Bool) : List LikeRow → List LikeRow
  | [] => []
  | r :: rs =>
      if r.actor = a ∧ r.target = t then { r with is_like := w } :: rs
      else r :: flipLike a t w rs

/-- The storage state touched by `LikeToggleView.post`: the `Like` table and
the denormalized `total_likes` / `total_dislikes` columns of the target rows
(an episode target updates the episode row, an anime target the anime
row). -/
structure LikeState where
  likes : List LikeRow
  likesOf : Target → Int
  dislikesOf : Target → Int

/-- `Model.objects.filter(pk=...).update(field=F('field') + d)`: an atomic
storage-level delta on one counter column of one target row. -/
def bump (f : Target → Int) (t : Target) (d : Int) : Target → Int :=
  fun u => if u = t then f u + d else f u

/-- The `action` value returned by `LikeToggleView.post`. -/
inductive LikeResult where
  | created
  | updated
  | removed
deriving DecidableEq

/-- The toggle logic of `LikeToggleView.post` (views.py:602-688) once the
target and actor are resolved: case split on the existing `Like` row for
(actor, target); create / delete / flip the row and apply the matching
counter deltas of the source. -/
def setReaction (s : LikeState) (a : Actor) (t : Target) (wantLike : Bool) :
    LikeState × LikeResult :=
  match findLike a t s.likes with
  | some b =>
      if b = wantLike then
        ({ likes := deleteLike a t s.likes,
           likesOf := if wantLike then bump s.likesOf t (-1) else s.likesOf,
           dislikesOf := if wantLike then s.dislikesOf else bump s.dislikesOf t (-1) },
         LikeResult.removed)
      else
        ({ likes := flipLike a t wantLike s.likes,
           likesOf := if b then bump s.likesOf t (-1) else bump s.likesOf t 1,
           dislikesOf := if b then bump s.dislikesOf t 1 else bump s.dislikesOf t (-1) },
         LikeResult.updated)
  | none =>
      ({ likes := { actor := a, target := t, is_like := wantLike } :: s.likes,
         likesOf := if wantLike then bump s.likesOf t 1 else s.likesOf,
         dislikesOf := if wantLike then s.dislikesOf else bump s.dislikesOf t 1 },
       LikeResult.created)

/-- Number of `Like` rows referencing target `t` whose `is_like` is `v`. -/
def countVal (t : Target) (v : Bool) (rows : List LikeRow) : Nat :=
  rows.countP (fun r => decide (r.target = t ∧ r.is_like = v))

/-- Number of `Like` rows referencing target `t`. -/
def countRows (t : Target) (rows : List LikeRow) : Nat :=
  rows.countP (fun r => decide (r.target = t))

/-- The counters of every target agree with the stored `Like` rows. -/
def countersMatch (s : LikeState) : Prop :=
  ∀ t, s.likesOf t = (countVal t true s.likes : Int) ∧
       s.dislikesOf t = (countVal t false s.likes : Int)

/-- Sequential execution of a list of `setReaction` calls. -/
def runToggles (s : LikeState) (ops : List (Actor × Target × Bool)) : LikeState :=
  ops.foldl (fun s op => (setReaction s op.1 op.2.1 op.2.2).1) s

/-- The empty like store with all counters zero. -/
def likeState0 : LikeState :=
  { likes := [], likesOf := fun _ => 0, dislikesOf := fun _ => 0 }

/-- A concrete toggle sequence used as witness input. -/
def demoOps : List (Actor × Target × Bool) :=
  [(Actor.user 1, Target.episode 1, true),
   (Actor.user 1, Target.episode 1, true),
   (Actor.user 1, Target.episode 1, false),
   (Actor.session 2, Target.episode 1, false)]

/-- One row of the `WatchHistory` table (models.py:216-263), restricted to
the fields the core reads or writes. -/
structure WatchRow where
  actor : Actor
  animeId : Nat
  episodeId : Nat
  duration : Option Int
  completed : Bool
  watched_at : Nat
  ip_address : String
  device_type : String
  country : String
deriving DecidableEq

/-- The data `EpisodeWatchView.post` assembles for the upsert
(views.py:500-517): `watched_at`/ip/device/country always, duration and
completed only when `serializer.validated_data` carries them. -/
structure WatchPayload where
  duration : Option Int
  completed : Option Bool
  now : Nat
  ip : String
  device : String
  country : String
deriving DecidableEq

/-- The storage state touched by the watch views: the `WatchHistory` table
and the denormalized `total_views` columns of the episode and anime rows. -/
structure WatchState where
  rows : List WatchRow
  epViews : Nat → Int
  animeViews : Nat → Int

/-- `Model.objects.filter(pk=k).update(f=F('f') + d)` on a row keyed by a
numeric id. -/
def bumpN (f : Nat → Int) (k : Nat) (d : Int) : Nat → Int :=
  fun u => if u = k then f u + d else f u

/-- The `lookup_filter` of `EpisodeWatchView.post` (views.py:477-487): a row
belongs to this (actor, anime, episode) triple. -/
def watchKey (a : Actor) (an ep : Nat) (r : WatchRow) : Bool :=
  decide (r.actor = a ∧ r.animeId = an ∧ r.episodeId = ep)

/-- Number of `WatchHistory` rows for the (actor, anime, episode) triple. -/
def countWatch (a : Actor) (an ep : Nat) (rows : List WatchRow) : Nat :=
  rows.countP (watchKey a an ep)

/-- The update path of `update_or_create` (views.py:520-523): the fields
carried in `defaults` are rewritten on the existing row for the triple. -/
def updateWatch (a : Actor) (an ep : Nat) (p : WatchPayload) :
    List WatchRow → List WatchRow
  | [] => []
  | r :: rs =>
      if watchKey a an ep r then
        { r with
          watched_at := p.now,
          ip_address := p.ip,
          device_type := p.device,
          country := p.country,
          duration := match p.duration with | some d => some d | none => r.duration,
          completed := match p.completed with | some c => c | none => r.completed } :: rs
      else r :: updateWatch a an ep p rs

/-- The create path of `update_or_create`: absent payload fields fall back
to the model defaults (`watch_duration_seconds` null, `completed` false). -/
def newWatchRow (a : Actor) (an ep : Nat) (p : WatchPayload) : WatchRow :=
  { actor := a, animeId := an, episodeId := ep,
    duration := p.duration, completed := p.completed.getD false,
    watched_at := p.now, ip_address := p.ip, device_type := p.device,
    country := p.country }

/-- `EpisodeWatchView.post` (views.py:437-535) after the anime, episode and
actor are resolved and the payload validated: check whether a row exists for
the triple, increment `total_views` on the episode and the anime rows only
when it does not, then upsert the row.  Returns the new state and whether
the row was created (HTTP 201) rather than updated (HTTP 200). -/
def recordWatch (s : WatchState) (a : Actor) (an ep : Nat) (p : WatchPayload) :
    WatchState × Bool :=
  let viewExists := s.rows.any (watchKey a an ep)
  if viewExists then
    ({ s with rows := updateWatch a an ep p s.rows }, false)
  else
    ({ rows := newWatchRow a an ep p :: s.rows,
       epViews := bumpN s.epViews ep 1,
       animeViews := bumpN s.animeViews an 1 }, true)

/-- Sequential execution of a list of `recordWatch` calls for one triple. -/
def runWatches (s : WatchState) (a : Actor) (an ep : Nat)
    (ps : List WatchPayload) : WatchState :=
  ps.foldl (fun s p => (recordWatch s a an ep p).1) s

/-- The empty watch store with all view counters zero. -/
def watchState0 : WatchState :=
  { rows := [], epViews := fun _ => 0, animeViews := fun _ => 0 }

/-- A first concrete watch payload used as witness input. -/
def demoWatch1 : WatchPayload :=
  { duration := none, completed := none, now := 10,
    ip := "ip", device := "ua", country := "UZ" }

/-- A second concrete watch payload used as witness input. -/
def demoWatch2 : WatchPayload :=
  { duration := some 100, completed := some true, now := 20,
    ip := "ip", device := "ua", country := "UZ" }

/-- `WatchHistorySerializer.validate` (serializers.py:299-312), for an
episode whose `duration_seconds` is set: the checks run only when
`watch_duration_seconds` is supplied; the float literal `0.9` of the source
is the exact rational 9/10, so `wds < 0.9 * dur` on integers is
`10 * wds < 9 * dur`.  Returns true when the data is accepted. -/
def watchValidateOk (epDuration : Int) (duration : Option Int)
    (completed : Bool) : Bool :=
  match duration with
  | none => true
  | some d =>
      if d > epDuration then false
      else if completed ∧ 10 * d < 9 * epDuration then false
      else true

/-- The view-counting block of `EpisodeDetailView.get` (views.py:280-314):
when no `WatchHistory` row exists for the actor and episode, `total_views`
is incremented on the episode and anime rows first, and the row insert is
then attempted inside a try/except whose handler only logs a warning
(views.py:311-314); no transaction surrounds the block anywhere in the
source.  `insertFails` models the insert raising (for example losing the
unique-constraint race): the handler swallows it and the state keeps the
increments. -/
def episodeDetailCountView (s : WatchState) (a : Actor) (an ep : Nat)
    (now : Nat) (ip device country : String) (insertFails : Bool) : WatchState :=
  let viewExists := s.rows.any (watchKey a an ep)
  if viewExists then s
  else
    let s1 : WatchState :=
      { s with epViews := bumpN s.epViews ep 1,
               animeViews := bumpN s.animeViews an 1 }
    if insertFails then s1
    else { s1 with
           rows := { actor := a, animeId := an, episodeId := ep,
                     duration := none, completed := false, watched_at := now,
                     ip_address := ip, device_type := device,
                     country := country } :: s1.rows }

/-- One row of the `Favorite` table (models.py:445-482). -/
structure FavRow where
  actor : Actor
  animeId : Nat
  added_at : Nat
deriving DecidableEq

/-- The storage state touched by `FavoriteView`: the `Favorite` table and
the denormalized `total_favorites` column of the anime rows. -/
structure FavState where
  favs : List FavRow
  favoritesOf : Nat → Int

/-- The four responses `FavoriteView` produces on its non-exceptional
paths: the HTTP status and the `success` flag of the JSON body follow the
`base_response` helper each branch calls. -/
inductive FavOutcome where
  | alreadyFavorited
  | added
  | removed
  | notInFavorites
deriving DecidableEq

/-- The `success` field of the response body: `success_response` sets true,
`not_found_response` (an `error_response` with HTTP 404,
base_response.py:16-34) sets false. -/
def FavOutcome.isSuccess : FavOutcome → Bool
  | FavOutcome.notInFavorites => false
  | _ => true

/-- The HTTP status of each branch (views.py:932-937, 954-957, 1005-1016). -/
def FavOutcome.httpStatus : FavOutcome → Nat
  | FavOutcome.alreadyFavorited => 200
  | FavOutcome.added => 201
  | FavOutcome.removed => 200
  | FavOutcome.notInFavorites => 404

/-- The per-actor favorite filter of `FavoriteView` (views.py:920-929). -/
def favKey (a : Actor) (an : Nat) (r : FavRow) : Bool :=
  decide (r.actor = a ∧ r.animeId = an)

/-- Number of `Favorite` rows for this (actor, anime) pair. -/
def countFav (a : Actor) (an : Nat) (rows : List FavRow) : Nat :=
  rows.countP (favKey a an)

/-- `favorite.delete()` on the row `filter(...).first()` returned
(views.py:993-1010): removes the first matching row. -/
def favDeleteRow (a : Actor) (an : Nat) : List FavRow → List FavRow
  | [] => []
  | r :: rs => if r.actor = a ∧ r.animeId = an then rs else r :: favDeleteRow a an rs

/-- `FavoriteView.post` (views.py:889-963) after the anime and actor are
resolved: an existing favorite short-circuits with "already in favorites",
otherwise the row is created and `total_favorites` incremented. -/
def favAdd (s : FavState) (a : Actor) (an : Nat) (now : Nat) :
    FavState × FavOutcome :=
  if s.favs.any (favKey a an) then (s, FavOutcome.alreadyFavorited)
  else
    ({ favs := { actor := a, animeId := an, added_at := now } :: s.favs,
       favoritesOf := bumpN s.favoritesOf an 1 },
     FavOutcome.added)

/-- `FavoriteView.delete` (views.py:965-1022) after the anime and actor are
resolved: a missing favorite returns the `not_found_response` "Anime not in
favorites", otherwise the row is deleted and `total_favorites`
decremented. -/
def favRemove (s : FavState) (a : Actor) (an : Nat) : FavState × FavOutcome :=
  if s.favs.any (favKey a an) then
    ({ favs := favDeleteRow a an s.favs,
       favoritesOf := bumpN s.favoritesOf an (-1) },
     FavOutcome.removed)
  else (s, FavOutcome.notInFavorites)

/-- The empty favorite store with all counters zero. -/
def favState0 : FavState := { favs := [], favoritesOf := fun _ => 0 }

/-- One row of the `Comment` table (models.py:311-342), restricted to the
fields the core reads or writes.  `commentPost` below sets exactly one of
`animeId` / `episodeId`, mirroring views.py:779-782. -/
structure CommentRow where
  id : Nat
  author : Option Actor
  guest_name : Option String
  animeId : Option Nat
  episodeId : Option Nat
  parent : Option Nat
  text : String
  is_approved : Bool
deriving DecidableEq

/-- The storage state touched by the comment views: the `Comment` table, the
next primary key, and the denormalized `total_comments` columns of the anime
and episode rows. -/
structure CommentState where
  comments : List CommentRow
  nextId : Nat
  animeComments : Nat → Int
  epComments : Nat → Int

/-- `Comment.objects.get(id=...)` / the primary-key lookup of the `parent`
serializer field. -/
def findComment (cid : Nat) : List CommentRow → Option CommentRow
  | [] => none
  | r :: rs => if r.id = cid then some r else findComment cid rs

/-- Python `not text.strip()`: the text is empty or whitespace only. -/
def isBlank (t : String) : Bool :=
  t.data.all (fun c => c.isWhitespace)

/-- One guard of `CommentSerializer.validate` (serializers.py:369-372):
`if <ctx> and parent.<field> != <ctx>` — fires only when the context object
is present and the parent's stored reference differs from it. -/
def mismatch (ctx : Option Nat) (parentField : Option Nat) : Bool :=
  match ctx with
  | some i => decide (parentField ≠ some i)
  | none => false

/-- `CommentSerializer.validate` (serializers.py:360-374): reject blank
text; when a parent is given, its stored `anime` must equal the context
anime and its stored `episode` the context episode.  Returns true when the
data is accepted. -/
def commentValidate (text : String) (parent : Option CommentRow)
    (ctxAnime ctxEpisode : Option Nat) : Bool :=
  if isBlank text then false
  else
    match parent with
    | none => true
    | some p =>
        if mismatch ctxAnime p.animeId then false
        else if mismatch ctxEpisode p.episodeId then false
        else true

/-- The outcome of `CommentListCreateView.post`: a validation error, the
missing-actor error, or a created comment (approved or pending). -/
inductive CommentOutcome where
  | validationError
  | noActor
  | posted (approved : Bool)
deriving DecidableEq

/-- The creation block of `CommentListCreateView.post` (views.py:774-800):
an episode target stores `episode` only (anime left null), an anime target
stores `anime`; after the insert the matching `total_comments` counter is
incremented. -/
def commentCreate (s : CommentState) (author : Actor) (gname : Option String)
    (text : String) (parentId : Option Nat) (animeId : Nat)
    (episodeId : Option Nat) (approved : Bool) : CommentState :=
  { comments :=
      { id := s.nextId, author := some author, guest_name := gname,
        animeId := match episodeId with | some _ => none | none => some animeId,
        episodeId := episodeId, parent := parentId, text := text,
        is_approved := approved } :: s.comments,
    nextId := s.nextId + 1,
    animeComments :=
      match episodeId with
      | some _ => s.animeComments
      | none => bumpN s.animeComments animeId 1,
    epComments :=
      match episodeId with
      | some e => bumpN s.epComments e 1
      | none => s.epComments }

/-- `CommentListCreateView.post` (views.py:726-815) after the anime and the
optional episode are resolved: the serializer resolves and validates the
parent and the text, then the view branches on the actor — a registered
user posts approved, an anonymous session posts unapproved with
`guest_name` defaulting to "Anonymous", and no actor is an error. -/
def commentPost (s : CommentState) (actor : Option Actor) (guest : Option String)
    (text : String) (parentId : Option Nat) (animeId : Nat)
    (episodeId : Option Nat) : CommentState × CommentOutcome :=
  let parentRow : Option (Option CommentRow) :=
    match parentId with
    | none => some none
    | some pid =>
        match findComment pid s.comments with
        | none => none
        | some p => some (some p)
  match parentRow with
  | none => (s, CommentOutcome.validationError)
  | some p =>
      if commentValidate text p (some animeId) episodeId then
        match actor with
        | none => (s, CommentOutcome.noActor)
        | some (Actor.user u) =>
            (commentCreate s (Actor.user u) none text parentId animeId
               episodeId true,
             CommentOutcome.posted true)
        | some (Actor.session i) =>
            (commentCreate s (Actor.session i) (some (guest.getD "Anonymous"))
               text parentId animeId episodeId false,
             CommentOutcome.posted false)
      else (s, CommentOutcome.validationError)

/-- The empty comment store. -/
def commentState0 : CommentState :=
  { comments := [], nextId := 1,
    animeComments := fun _ => 0, epComments := fun _ => 0 }

/-- One row of the `AnonymousSession` table (models.py:50-66). -/
structure SessionRow where
  session_token : String
  fingerprint_hash : String
  ip_address : String
  country : String
  city : String
  first_seen_at : Nat
  last_seen_at : Nat
  total_visits : Int
deriving DecidableEq

/-- The request-derived inputs of `AnonymousSessionTrackingMixin`
(mixins.py:16-31): the authentication state and the header values. -/
structure RequestCtx where
  isAuthenticated : Bool
  userId : Nat
  sessionToken : Option String
  fingerprint : String
  ip : String
  country : String
  city : String
  now : Nat

/-- `AnonymousSession.objects.get_or_create(session_token=...)` lookup. -/
def findSession (tok : String) : List SessionRow → Option SessionRow
  | [] => none
  | r :: rs => if r.session_token = tok then some r else findSession tok rs

/-- The update branch of `track_anonymous_session` (mixins.py:39-43):
`total_visits = F('total_visits') + 1` is a storage-level increment applied
to the stored row, and `last_seen_at = now`; all other fields keep their
stored values. -/
def touchSession (tok : String) (now : Nat) : List SessionRow → List SessionRow
  | [] => []
  | r :: rs =>
      if r.session_token = tok then
        { r with total_visits := r.total_visits + 1, last_seen_at := now } :: rs
      else r :: touchSession tok now rs

/-- `track_anonymous_session` (mixins.py:16-45): no side effect for an
authenticated request or a missing token; `get_or_create` by token with
visit count 1 and `first_seen_at = last_seen_at = now` as defaults; on an
existing row, the storage-level increment followed by `refresh_from_db`. -/
def trackAnonymousSession (rows : List SessionRow) (req : RequestCtx) :
    List SessionRow × Option SessionRow :=
  if req.isAuthenticated then (rows, none)
  else
    match req.sessionToken with
    | none => (rows, none)
    | some tok =>
        match findSession tok rows with
        | none =>
            let fresh : SessionRow :=
              { session_token := tok, fingerprint_hash := req.fingerprint,
                ip_address := req.ip, country := req.country, city := req.city,
                first_seen_at := req.now, last_seen_at := req.now,
                total_visits := 1 }
            (fresh :: rows, some fresh)
        | some _ =>
            let rows2 := touchSession tok req.now rows
            (rows2, findSession tok rows2)

/-- The identity `get_user_or_session` yields: a registered user, an
anonymous session row, or none. -/
inductive Resolved where
  | userActor (id : Nat)
  | sessionActor (srow : SessionRow)
  | noActor
deriving DecidableEq

/-- `get_user_or_session` (mixins.py:47-50): the registered user when
authenticated, otherwise whatever `track_anonymous_session` yields. -/
def getUserOrSession (rows : List SessionRow) (req : RequestCtx) :
    List SessionRow × Resolved :=
  if req.isAuthenticated then (rows, Resolved.userActor req.userId)
  else
    match trackAnonymousSession rows req with
    | (rows2, some srow) => (rows2, Resolved.sessionActor srow)
    | (rows2, none) => (rows2, Resolved.noActor)

/-- A concrete request context used as witness input. -/
def demoReq (tok : Option String) (auth : Bool) (now : Nat) : RequestCtx :=
  { isAuthenticated := auth, userId := 9, sessionToken := tok,
    fingerprint := "fp", ip := "ip", country := "UZ", city := "T", now := now }

theorem countVal_cons (r : LikeRow) (rows : List LikeRow) (t : Target) (v : Bool) :
    countVal t v (r :: rows) =
      countVal t v rows + (if r.target = t ∧ r.is_like = v then 1 else 0) := by
  by_cases h : r.target = t ∧ r.is_like = v <;> simp [countVal, List.countP_cons, h]

theorem countRows_cons (r : LikeRow) (rows : List LikeRow) (t : Target) :
    countRows t (r :: rows) = countRows t rows + (if r.target = t then 1 else 0) := by
  by_cases h : r.target = t <;> simp [countRows, List.countP_cons, h]

theorem countVal_deleteLike {a : Actor} {t : Target} {rows : List LikeRow} {b : Bool}
    (h : findLike a t rows = some b) (t' : Target) (v : Bool) :
    countVal t' v (deleteLike a t rows) + (if t = t' ∧ b = v then 1 else 0)
      = countVal t' v rows := by
  induction rows with
  | nil => simp [findLike] at h
  | cons r rs ih =>
      by_cases hm : r.actor = a ∧ r.target = t
      · simp [findLike, hm] at h
        simp [deleteLike, hm, countVal_cons, hm.2, h]
      · simp only [findLike, if_neg hm] at h
        simp only [deleteLike, if_neg hm, countVal_cons]
        have := ih h
        omega

theorem countVal_flipLike {a : Actor} {t : Target} {rows : List LikeRow} {b : Bool}
    (w : Bool) (h : findLike a t rows = some b) (t' : Target) (v : Bool) :
    countVal t' v (flipLike a t w rows) + (if t = t' ∧ b = v then 1 else 0)
      = countVal t' v rows + (if t = t' ∧ w = v then 1 else 0) := by
  induction rows with
  | nil => simp [findLike] at h
  | cons r rs ih =>
      by_cases hm : r.actor = a ∧ r.target = t
      · simp [findLike, hm] at h
        simp [flipLike, hm, countVal_cons, hm.2, h]
        omega
      · simp only [findLike, if_neg hm] at h
        simp only [flipLike, if_neg hm, countVal_cons]
        have := ih h
        omega

theorem findLike_flipLike (a : Actor) (t : Target) (w : Bool) (rows : List LikeRow) :
    findLike a t (flipLike a t w rows) = (findLike a t rows).map (fun _ => w) := by
  induction rows with
  | nil => simp [findLike, flipLike]
  | cons r rs ih =>
      by_cases hm : r.actor = a ∧ r.target = t
      · simp [findLike, flipLike, hm]
      · simp [findLike, flipLike, hm, ih]

theorem countRows_eq_countVal (t : Target) (rows : List LikeRow) :
    countRows t rows = countVal t true rows + countVal t false rows := by
  induction rows with
  | nil => simp [countRows, countVal]
  | cons r rs ih =>
      rw [countRows_cons, countVal_cons, countVal_cons, ih]
      by_cases ht : r.target = t
      · cases hb : r.is_like <;> simp [ht, hb] <;> omega
      · simp [ht]

theorem bump_eval (f : Target → Int) (t : Target) (d : Int) (t' : Target) :
    bump f t d t' = if t = t' then f t' + d else f t' := by
  unfold bump
  by_cases h : t = t'
  · subst h; simp
  · rw [if_neg (fun hh => h hh.symm), if_neg h]

theorem setReaction_preserves (s : LikeState) (a : Actor) (t : Target) (w : Bool)
    (hs : countersMatch s) : countersMatch (setReaction s a t w).1 := by
  intro t'
  obtain ⟨hl, hd⟩ := hs t'
  cases hfind : findLike a t s.likes with
  | none =>
      simp only [setReaction, hfind]
      constructor
      · cases w <;> by_cases htt : t = t' <;>
          simp [bump_eval, countVal_cons, htt, hl] <;> omega
      · cases w <;> by_cases htt : t = t' <;>
          simp [bump_eval, countVal_cons, htt, hd] <;> omega
  | some b =>
      by_cases hbw : b = w
      · subst hbw
        have h1 := countVal_deleteLike hfind t' true
        have h2 := countVal_deleteLike hfind t' false
        simp only [setReaction, hfind, if_pos rfl]
        constructor
        · cases b <;> by_cases htt : t = t' <;> simp_all [bump_eval] <;> omega
        · cases b <;> by_cases htt : t = t' <;> simp_all [bump_eval] <;> omega
      · have h1 := countVal_flipLike w hfind t' true
        have h2 := countVal_flipLike w hfind t' false
        simp only [setReaction, hfind, if_neg hbw]
        constructor
        · cases b <;> cases w <;> (try exact absurd rfl hbw) <;>
            by_cases htt : t = t' <;> simp_all [bump_eval] <;> omega
        · cases b <;> cases w <;> (try exact absurd rfl hbw) <;>
            by_cases htt : t = t' <;> simp_all [bump_eval] <;> omega

theorem runToggles_preserves (ops : List (Actor × Target × Bool)) :
    ∀ s : LikeState, countersMatch s → countersMatch (runToggles s ops) := by
  induction ops with
  | nil => intro s hs; simpa [runToggles] using hs
  | cons op ops ih =>
      intro s hs
      have hstep := setReaction_preserves s op.1 op.2.1 op.2.2 hs
      simpa [runToggles] using ih _ hstep

/-- Claim C1: for every actor, target and requested reaction, `setReaction`
creates the record with `is_like = wantLike`, reports `created` and bumps
the matching counter by one when no record exists; deletes the record,
reports `removed` and decrements the matching counter when the stored
reaction equals the request; flips the stored record to `wantLike`, reports
`updated`, decrements the old counter and increments the new one when it
differs. -/
theorem setReaction_cases (s : LikeState) (a : Actor) (t : Target) (w : Bool) :
    (findLike a t s.likes = none →
      (setReaction s a t w).2 = LikeResult.created ∧
      (setReaction s a t w).1.likes = { actor := a, target := t, is_like := w } :: s.likes ∧
      (setReaction s a t w).1.likesOf t = s.likesOf t + (if w then 1 else 0) ∧
      (setReaction s a t w).1.dislikesOf t = s.dislikesOf t + (if w then 0 else 1)) ∧
    (findLike a t s.likes = some w →
      (setReaction s a t w).2 = LikeResult.removed ∧
      (setReaction s a t w).1.likes = deleteLike a t s.likes ∧
      (setReaction s a t w).1.likesOf t = s.likesOf t - (if w then 1 else 0) ∧
      (setReaction s a t w).1.dislikesOf t = s.dislikesOf t - (if w then 0 else 1)) ∧
    (findLike a t s.likes = some (!w) →
      (setReaction s a t w).2 = LikeResult.updated ∧
      (setReaction s a t w).1.likes = flipLike a t w s.likes ∧
      findLike a t (setReaction s a t w).1.likes = some w ∧
      (setReaction s a t w).1.likesOf t = s.likesOf t + (if w then 1 else -1) ∧
      (setReaction s a t w).1.dislikesOf t = s.dislikesOf t + (if w then -1 else 1)) := by
  refine ⟨fun h => ?_, fun h => ?_, fun h => ?_⟩
  · refine ⟨?_, ?_, ?_, ?_⟩ <;> cases w <;>
      simp [setReaction, h, bump_eval] <;> omega
  · refine ⟨?_, ?_, ?_, ?_⟩ <;> cases w <;>
      simp [setReaction, h, bump_eval] <;> omega
  · refine ⟨?_, ?_, ?_, ?_, ?_⟩ <;> cases w <;>
      simp [setReaction, h, bump_eval, findLike_flipLike] <;> omega

/-- Witness for C1 at a concrete input: liking a not-yet-liked episode
creates the record and moves `total_likes` from 0 to 1. -/
theorem setReaction_cases_witness :
    (setReaction likeState0 (Actor.user 1) (Target.episode 2) true).2 = LikeResult.created ∧
    (setReaction likeState0 (Actor.user 1) (Target.episode 2) true).1.likesOf
      (Target.episode 2) = 1 := by
  have h := (setReaction_cases likeState0 (Actor.user 1) (Target.episode 2) true).1 rfl
  refine ⟨h.1, ?_⟩
  rw [h.2.2.1]
  decide

/-- Claim C2: from any state whose counters match the stored rows, any
finite sequence of sequential `setReaction` calls keeps, for every target,
`total_likes` equal to the number of `is_like = true` rows, `total_dislikes`
equal to the number of `is_like = false` rows, and their sum equal to the
number of `Like` rows referencing the target. -/
theorem runToggles_reconciliation (s : LikeState) (hs : countersMatch s)
    (ops : List (Actor × Target × Bool)) (t : Target) :
    (runToggles s ops).likesOf t = (countVal t true (runToggles s ops).likes : Int) ∧
    (runToggles s ops).dislikesOf t = (countVal t false (runToggles s ops).likes : Int) ∧
    (runToggles s ops).likesOf t + (runToggles s ops).dislikesOf t
      = (countRows t (runToggles s ops).likes : Int) := by
  obtain ⟨h1, h2⟩ := runToggles_preserves ops s hs t
  refine ⟨h1, h2, ?_⟩
  rw [h1, h2, countRows_eq_countVal]
  push_cast
  ring

/-- Witness for C2: a concrete toggle sequence (like, like again, dislike,
second actor dislikes) on the empty store ends with matching counters and
`total_dislikes = 2`. -/
theorem runToggles_reconciliation_witness :
    ((runToggles likeState0 demoOps).likesOf (Target.episode 1)
        = (countVal (Target.episode 1) true (runToggles likeState0 demoOps).likes : Int) ∧
      (runToggles likeState0 demoOps).dislikesOf (Target.episode 1)
        = (countVal (Target.episode 1) false (runToggles likeState0 demoOps).likes : Int) ∧
      (runToggles likeState0 demoOps).likesOf (Target.episode 1)
          + (runToggles likeState0 demoOps).dislikesOf (Target.episode 1)
        = (countRows (Target.episode 1) (runToggles likeState0 demoOps).likes : Int)) ∧
    (runToggles likeState0 demoOps).dislikesOf (Target.episode 1) = 2 := by
  refine ⟨runToggles_reconciliation likeState0 (fun t => ⟨rfl, rfl⟩) demoOps
    (Target.episode 1), ?_⟩
  decide

theorem countWatch_cons (a : Actor) (an ep : Nat) (r : WatchRow)
    (rows : List WatchRow) :
    countWatch a an ep (r :: rows) =
      countWatch a an ep rows + (if watchKey a an ep r then 1 else 0) := by
  by_cases h : watchKey a an ep r <;> simp [countWatch, List.countP_cons, h]

theorem countWatch_eq_zero_iff (a : Actor) (an ep : Nat) (rows : List WatchRow) :
    countWatch a an ep rows = 0 ↔ rows.any (watchKey a an ep) = false := by
  simp [countWatch, List.countP_eq_zero, List.any_eq_false]

theorem countWatch_updateWatch (a : Actor) (an ep : Nat) (p : WatchPayload)
    (rows : List WatchRow) :
    countWatch a an ep (updateWatch a an ep p rows) = countWatch a an ep rows := by
  induction rows with
  | nil => simp [updateWatch]
  | cons r rs ih =>
      by_cases h : watchKey a an ep r
      · have hkey : watchKey a an ep
            { r with
              watched_at := p.now, ip_address := p.ip, device_type := p.device,
              country := p.country,
              duration := match p.duration with | some d => some d | none => r.duration,
              completed := match p.completed with | some c => c | none => r.completed }
            = true := by
          simp only [watchKey] at h ⊢
          exact h
        simp [updateWatch, h, countWatch_cons, hkey]
      · simp [updateWatch, h, countWatch_cons, ih]

theorem runWatches_stable (a : Actor) (an ep : Nat) (ps : List WatchPayload) :
    ∀ s : WatchState, countWatch a an ep s.rows = 1 →
      countWatch a an ep (runWatches s a an ep ps).rows = 1 ∧
      (runWatches s a an ep ps).epViews = s.epViews ∧
      (runWatches s a an ep ps).animeViews = s.animeViews := by
  induction ps with
  | nil => intro s h; exact ⟨h, rfl, rfl⟩
  | cons p ps ih =>
      intro s h
      have hany : s.rows.any (watchKey a an ep) = true := by
        cases hv : s.rows.any (watchKey a an ep) with
        | false =>
            have h0 := (countWatch_eq_zero_iff a an ep s.rows).2 hv
            omega
        | true => rfl
      have hstep : (recordWatch s a an ep p).1 =
          { s with rows := updateWatch a an ep p s.rows } := by
        simp [recordWatch, hany]
      have hcount : countWatch a an ep (updateWatch a an ep p s.rows) = 1 := by
        rw [countWatch_updateWatch]; exact h
      have hres := ih { s with rows := updateWatch a an ep p s.rows } hcount
      simpa [runWatches, List.foldl_cons, hstep] using hres

/-- Claim C3: starting with no `WatchHistory` row for the triple, a
nonempty sequence of sequential `recordWatch` calls leaves exactly one row
for (actor, anime, episode) and increments the episode and anime
`total_views` by exactly one in total; moreover every call that finds the
row already present rewrites it in place and leaves both view counters
untouched. -/
theorem recordWatch_view_once (s : WatchState) (a : Actor) (an ep : Nat)
    (ps : List WatchPayload) (hps : ps ≠ [])
    (h0 : countWatch a an ep s.rows = 0) :
    (countWatch a an ep (runWatches s a an ep ps).rows = 1 ∧
      (runWatches s a an ep ps).epViews ep = s.epViews ep + 1 ∧
      (runWatches s a an ep ps).animeViews an = s.animeViews an + 1) ∧
    (∀ s' : WatchState, ∀ p : WatchPayload,
      s'.rows.any (watchKey a an ep) = true →
        (recordWatch s' a an ep p).1.rows = updateWatch a an ep p s'.rows ∧
        (recordWatch s' a an ep p).1.epViews = s'.epViews ∧
        (recordWatch s' a an ep p).1.animeViews = s'.animeViews ∧
        (recordWatch s' a an ep p).2 = false) := by
  constructor
  · cases ps with
    | nil => exact absurd rfl hps
    | cons p ps =>
        have hany : s.rows.any (watchKey a an ep) = false :=
          (countWatch_eq_zero_iff a an ep s.rows).1 h0
        have hstep : (recordWatch s a an ep p).1 =
            { rows := newWatchRow a an ep p :: s.rows,
              epViews := bumpN s.epViews ep 1,
              animeViews := bumpN s.animeViews an 1 } := by
          simp [recordWatch, hany]
        have hkey : watchKey a an ep (newWatchRow a an ep p) = true := by
          simp [watchKey, newWatchRow]
        have hcount1 : countWatch a an ep (newWatchRow a an ep p :: s.rows) = 1 := by
          rw [countWatch_cons, hkey, h0]
          simp
        have hres := runWatches_stable a an ep ps
          { rows := newWatchRow a an ep p :: s.rows,
            epViews := bumpN s.epViews ep 1,
            animeViews := bumpN s.animeViews an 1 } hcount1
        have hrw : runWatches s a an ep (p :: ps) =
            runWatches { rows := newWatchRow a an ep p :: s.rows,
                         epViews := bumpN s.epViews ep 1,
                         animeViews := bumpN s.animeViews an 1 } a an ep ps := by
          simp [runWatches, List.foldl_cons, hstep]
        refine ⟨by rw [hrw]; exact hres.1, ?_, ?_⟩
        · rw [hrw, hres.2.1]
          simp [bumpN]
        · rw [hrw, hres.2.2]
          simp [bumpN]
  · intro s' p hany
    simp [recordWatch, hany]

/-- Witness for C3: two sequential watch calls by one session on the empty
store end with one row and both `total_views` counters at one. -/
theorem recordWatch_view_once_witness :
    countWatch (Actor.session 7) 3 4
        (runWatches watchState0 (Actor.session 7) 3 4 [demoWatch1, demoWatch2]).rows = 1 ∧
    (runWatches watchState0 (Actor.session 7) 3 4 [demoWatch1, demoWatch2]).epViews 4
      = watchState0.epViews 4 + 1 ∧
    (runWatches watchState0 (Actor.session 7) 3 4 [demoWatch1, demoWatch2]).animeViews 3
      = watchState0.animeViews 3 + 1 := by
  have h := (recordWatch_view_once watchState0 (Actor.session 7) 3 4
    [demoWatch1, demoWatch2] (by simp) rfl).1
  exact ⟨h.1, h.2.1, h.2.2⟩

/-- Claim C4: with a supplied duration, validation rejects a duration above
the episode length, rejects `completed = true` strictly below ninety percent
of the episode length, and accepts `completed = true` at exactly ninety
percent. -/
theorem watchValidate_spec (epDuration d : Int) (c : Bool) :
    (d > epDuration → watchValidateOk epDuration (some d) c = false) ∧
    (c = true → 10 * d < 9 * epDuration →
      watchValidateOk epDuration (some d) c = false) ∧
    (0 ≤ epDuration → 10 * d = 9 * epDuration →
      watchValidateOk epDuration (some d) true = true) := by
  refine ⟨fun h => ?_, fun hc h => ?_, fun hpos h => ?_⟩
  · simp [watchValidateOk, h]
  · subst hc
    by_cases hgt : d > epDuration
    · simp [watchValidateOk, hgt]
    · simp [watchValidateOk, hgt, h]
  · have hle : ¬ d > epDuration := by omega
    have hlt : ¬ 10 * d < 9 * epDuration := by omega
    simp [watchValidateOk, hle, hlt]

/-- Witness for C4: a 10-second episode accepts `completed` at 9 watched
seconds (exactly ninety percent), and a 10000-second episode rejects
`completed` at 8999 watched seconds (just below ninety percent). -/
theorem watchValidate_spec_witness :
    watchValidateOk 10 (some 9) true = true ∧
    watchValidateOk 10000 (some 8999) true = false := by
  refine ⟨(watchValidate_spec 10 9 true).2.2 (by decide) (by decide), ?_⟩
  exact (watchValidate_spec 10000 8999 true).2.1 rfl (by decide)

/-- Claim C10: when the payload omits `watch_duration_seconds`, neither the
length check nor the ninety-percent check runs, so `completed = true`
passes validation, and the created row stores `completed = true`. -/
theorem watchValidate_skips_when_no_duration (epDuration : Int) (c : Bool)
    (a : Actor) (an ep : Nat) (now : Nat) (ip device country : String) :
    watchValidateOk epDuration none c = true ∧
    (newWatchRow a an ep
      { duration := none, completed := some true, now := now, ip := ip,
        device := device, country := country }).completed = true :=
  ⟨rfl, rfl⟩

/-- Claim C9 fails on the code: in `EpisodeDetailView.get` the two
`total_views` increments run before the `WatchHistory` insert and the
insert's exception is swallowed (views.py:311-314), so at a concrete input
where the insert raises, the counters remain incremented while no record
exists — the record and counter mutations do not commit or abort
together. -/
theorem episodeDetail_insert_failure_keeps_counters :
    (episodeDetailCountView watchState0 (Actor.user 1) 4 9 0 "ip" "ua" "UZ" true).rows
        = [] ∧
    (episodeDetailCountView watchState0 (Actor.user 1) 4 9 0 "ip" "ua" "UZ" true).epViews 9
        = 1 ∧
    (episodeDetailCountView watchState0 (Actor.user 1) 4 9 0 "ip" "ua" "UZ" true).animeViews 4
        = 1 := by
  refine ⟨rfl, ?_, ?_⟩ <;> decide

theorem bumpN_eval (f : Nat → Int) (k : Nat) (d : Int) (u : Nat) :
    bumpN f k d u = if k = u then f u + d else f u := by
  unfold bumpN
  by_cases h : k = u
  · subst h; simp
  · rw [if_neg (fun hh => h hh.symm), if_neg h]

theorem countFav_cons (a : Actor) (an : Nat) (r : FavRow) (rows : List FavRow) :
    countFav a an (r :: rows) =
      countFav a an rows + (if favKey a an r then 1 else 0) := by
  by_cases h : favKey a an r <;> simp [countFav, List.countP_cons, h]

theorem countFav_eq_zero_iff (a : Actor) (an : Nat) (rows : List FavRow) :
    countFav a an rows = 0 ↔ rows.any (favKey a an) = false := by
  simp [countFav, List.countP_eq_zero, List.any_eq_false]

/-- Claim C5 fails on the code at this input: removing a favorite that does
not exist leaves the state unchanged but returns the `not_found_response`
"Anime not in favorites" — an error body with `success = false` and
HTTP 404 (views.py:1005-1007, base_response.py:16-34) — not a success
report of the resulting state. -/
theorem favRemove_absent_is_error :
    (favRemove favState0 (Actor.user 1) 1).2 = FavOutcome.notInFavorites ∧
    FavOutcome.isSuccess (favRemove favState0 (Actor.user 1) 1).2 = false ∧
    FavOutcome.httpStatus (favRemove favState0 (Actor.user 1) 1).2 = 404 ∧
    (favRemove favState0 (Actor.user 1) 1).1.favs = [] ∧
    (favRemove favState0 (Actor.user 1) 1).1.favoritesOf 1 = 0 :=
  ⟨rfl, rfl, rfl, rfl, rfl⟩

/-- Claim C5 as amended: add is a success no-op when the favorite already
exists, and otherwise creates the row and increments `total_favorites`;
remove deletes the row and decrements the counter when it exists, but when
absent it leaves the state unchanged and replies with the not-found error
response (success = false, HTTP 404) rather than a success report; add,
remove, add from a state without the favorite ends with exactly one
`Favorite` row and a net `total_favorites` change of +1. -/
theorem favorite_semantics (s : FavState) (a : Actor) (an : Nat) (now now2 : Nat) :
    (s.favs.any (favKey a an) = true →
      favAdd s a an now = (s, FavOutcome.alreadyFavorited)) ∧
    (s.favs.any (favKey a an) = false →
      (favAdd s a an now).2 = FavOutcome.added ∧
      (favAdd s a an now).1.favs
        = { actor := a, animeId := an, added_at := now } :: s.favs ∧
      (favAdd s a an now).1.favoritesOf an = s.favoritesOf an + 1) ∧
    (s.favs.any (favKey a an) = true →
      (favRemove s a an).2 = FavOutcome.removed ∧
      (favRemove s a an).1.favs = favDeleteRow a an s.favs ∧
      (favRemove s a an).1.favoritesOf an = s.favoritesOf an - 1) ∧
    (s.favs.any (favKey a an) = false →
      favRemove s a an = (s, FavOutcome.notInFavorites) ∧
      FavOutcome.isSuccess (favRemove s a an).2 = false ∧
      FavOutcome.httpStatus (favRemove s a an).2 = 404) ∧
    (countFav a an s.favs = 0 →
      countFav a an
        ((favAdd ((favRemove (favAdd s a an now).1 a an).1) a an now2).1).favs = 1 ∧
      ((favAdd ((favRemove (favAdd s a an now).1 a an).1) a an now2).1).favoritesOf an
        = s.favoritesOf an + 1) := by
  refine ⟨fun h => ?_, fun h => ?_, fun h => ?_, fun h => ?_, fun h0 => ?_⟩
  · simp [favAdd, h]
  · refine ⟨?_, ?_, ?_⟩ <;> simp [favAdd, h, bumpN_eval]
  · refine ⟨?_, ?_, ?_⟩ <;> simp [favRemove, h, bumpN_eval] <;> omega
  · exact ⟨by simp [favRemove, h], by simp [favRemove, h, FavOutcome.isSuccess],
      by simp [favRemove, h, FavOutcome.httpStatus]⟩
  · have hany : s.favs.any (favKey a an) = false :=
      (countFav_eq_zero_iff a an s.favs).1 h0
    have h1 : (favAdd s a an now).1 =
        { favs := { actor := a, animeId := an, added_at := now } :: s.favs,
          favoritesOf := bumpN s.favoritesOf an 1 } := by
      simp [favAdd, hany]
    have hanyTrue :
        (({ actor := a, animeId := an, added_at := now } : FavRow) :: s.favs).any
          (favKey a an) = true := by
      simp [List.any_cons, favKey]
    have hdel : favDeleteRow a an
        ({ actor := a, animeId := an, added_at := now } :: s.favs) = s.favs := by
      simp [favDeleteRow]
    have h2 : (favRemove (favAdd s a an now).1 a an).1 =
        { favs := s.favs,
          favoritesOf := bumpN (bumpN s.favoritesOf an 1) an (-1) } := by
      rw [h1]
      simp [favRemove, hanyTrue, hdel]
    have h3 : (favAdd ((favRemove (favAdd s a an now).1 a an).1) a an now2).1 =
        { favs := { actor := a, animeId := an, added_at := now2 } :: s.favs,
          favoritesOf := bumpN (bumpN (bumpN s.favoritesOf an 1) an (-1)) an 1 } := by
      rw [h2]
      simp [favAdd, hany]
    rw [h3]
    constructor
    · rw [countFav_cons, h0]
      simp [favKey]
    · simp [bumpN_eval]

/-- Witness for the amended C5: add, remove, add by one user on the empty
store ends with one favorite row and the counter at one. -/
theorem favorite_semantics_witness :
    countFav (Actor.user 3) 5
      ((favAdd ((favRemove (favAdd favState0 (Actor.user 3) 5 1).1 (Actor.user 3) 5).1)
        (Actor.user 3) 5 2).1).favs = 1 ∧
    ((favAdd ((favRemove (favAdd favState0 (Actor.user 3) 5 1).1 (Actor.user 3) 5).1)
        (Actor.user 3) 5 2).1).favoritesOf 5 = favState0.favoritesOf 5 + 1 :=
  (favorite_semantics favState0 (Actor.user 3) 5 1 2).2.2.2.2 rfl

/-- Claim C6: a blank comment is rejected whatever the actor and parent; a
non-blank parentless post by a registered user creates the row with
`is_approved = true` and no guest name, a post by an anonymous session
creates it with `is_approved = false` and `guest_name` defaulting to
"Anonymous" when unset; in both cases the target's `total_comments` is
incremented immediately — for an episode target on the episode row, else on
the anime row — including for the unapproved anonymous comment. -/
theorem commentPost_spec (s : CommentState) (guest : Option String)
    (text : String) (animeId : Nat) (episodeId : Option Nat) :
    (∀ (actor : Option Actor) (parentId : Option Nat), isBlank text = true →
      commentPost s actor guest text parentId animeId episodeId
        = (s, CommentOutcome.validationError)) ∧
    (∀ u, isBlank text = false →
      (commentPost s (some (Actor.user u)) guest text none animeId episodeId).2
          = CommentOutcome.posted true ∧
      (commentPost s (some (Actor.user u)) guest text none animeId episodeId).1.comments
        = { id := s.nextId, author := some (Actor.user u), guest_name := none,
            animeId := match episodeId with | some _ => none | none => some animeId,
            episodeId := episodeId, parent := none, text := text,
            is_approved := true } :: s.comments ∧
      (match episodeId with
       | some e =>
          (commentPost s (some (Actor.user u)) guest text none animeId episodeId).1.epComments e
            = s.epComments e + 1
       | none =>
          (commentPost s (some (Actor.user u)) guest text none animeId episodeId).1.animeComments animeId
            = s.animeComments animeId + 1)) ∧
    (∀ i, isBlank text = false →
      (commentPost s (some (Actor.session i)) guest text none animeId episodeId).2
          = CommentOutcome.posted false ∧
      (commentPost s (some (Actor.session i)) guest text none animeId episodeId).1.comments
        = { id := s.nextId, author := some (Actor.session i),
            guest_name := some (guest.getD "Anonymous"),
            animeId := match episodeId with | some _ => none | none => some animeId,
            episodeId := episodeId, parent := none, text := text,
            is_approved := false } :: s.comments ∧
      (match episodeId with
       | some e =>
          (commentPost s (some (Actor.session i)) guest text none animeId episodeId).1.epComments e
            = s.epComments e + 1
       | none =>
          (commentPost s (some (Actor.session i)) guest text none animeId episodeId).1.animeComments animeId
            = s.animeComments animeId + 1)) := by
  refine ⟨fun actor parentId h => ?_, fun u h => ?_, fun i h => ?_⟩
  · cases parentId with
    | none => simp [commentPost, commentValidate, h]
    | some pid =>
        cases hfind : findComment pid s.comments with
        | none => simp [commentPost, hfind]
        | some p => simp [commentPost, hfind, commentValidate, h]
  · refine ⟨?_, ?_, ?_⟩ <;>
      cases episodeId <;>
        simp [commentPost, commentValidate, commentCreate, h, bumpN_eval]
  · refine ⟨?_, ?_, ?_⟩ <;>
      cases episodeId <;>
        simp [commentPost, commentValidate, commentCreate, h, bumpN_eval]

/-- Witness for C6: concrete posts — a registered user's comment on episode
3 of anime 7 is approved with the episode counter at one, an anonymous
comment on anime 7 is unapproved, named "Anonymous", with the anime counter
at one, and a whitespace-only comment is rejected. -/
theorem commentPost_spec_witness :
    (commentPost commentState0 (some (Actor.user 1)) none "hi" none 7 (some 3)).2
        = CommentOutcome.posted true ∧
    (commentPost commentState0 (some (Actor.user 1)) none "hi" none 7 (some 3)).1.epComments 3
        = 1 ∧
    (commentPost commentState0 (some (Actor.session 2)) none "yo" none 7 none).2
        = CommentOutcome.posted false ∧
    (findComment 1 (commentPost commentState0 (some (Actor.session 2)) none "yo" none 7 none).1.comments).map
        (fun r => r.guest_name) = some (some "Anonymous") ∧
    (commentPost commentState0 (some (Actor.session 2)) none "yo" none 7 none).1.animeComments 7
        = 1 ∧
    commentPost commentState0 (some (Actor.user 1)) none " " none 7 none
        = (commentState0, CommentOutcome.validationError) := by
  have hu := (commentPost_spec commentState0 none "hi" 7 (some 3)).2.1 1 (by decide)
  have hs := (commentPost_spec commentState0 none "yo" 7 none).2.2 2 (by decide)
  have hb := (commentPost_spec commentState0 none " " 7 none).1
    (some (Actor.user 1)) none (by decide)
  refine ⟨hu.1, ?_, hs.1, ?_, ?_, hb⟩
  · rw [hu.2.2]; decide
  · rw [hs.2.1]; decide
  · rw [hs.2.2]; decide

/-- Claim C7 fails on the code: a reply whose parent is a comment on the
same episode target is rejected.  `CommentListCreateView.post` stores an
episode comment with a null anime reference (views.py:779-782), while
`CommentSerializer.validate` compares `parent.anime` against the request's
anime (serializers.py:369), so the comparison is `None != <anime>` and every
reply to an episode comment fails validation: here user 1 comments on
episode 3 of anime 7, and user 2's reply to that comment on the very same
episode comes back as a validation error with the state unchanged. -/
theorem comment_reply_same_episode_rejected :
    (findComment 1
        (commentPost commentState0 (some (Actor.user 1)) none "hello" none 7 (some 3)).1.comments).map
        (fun p => (p.animeId, p.episodeId)) = some (none, some 3) ∧
    (commentPost
        (commentPost commentState0 (some (Actor.user 1)) none "hello" none 7 (some 3)).1
        (some (Actor.user 2)) none "reply" (some 1) 7 (some 3)).2
      = CommentOutcome.validationError ∧
    (commentPost
        (commentPost commentState0 (some (Actor.user 1)) none "hello" none 7 (some 3)).1
        (some (Actor.user 2)) none "reply" (some 1) 7 (some 3)).1.comments
      = (commentPost commentState0 (some (Actor.user 1)) none "hello" none 7 (some 3)).1.comments := by
  refine ⟨?_, ?_, ?_⟩ <;> decide

theorem findSession_touchSession (tok : String) (now : Nat) (rows : List SessionRow) :
    findSession tok (touchSession tok now rows)
      = (findSession tok rows).map
          (fun r => { r with total_visits := r.total_visits + 1, last_seen_at := now }) := by
  induction rows with
  | nil => simp [findSession, touchSession]
  | cons r rs ih =>
      by_cases h : r.session_token = tok
      · simp [findSession, touchSession, h]
      · simp [findSession, touchSession, h, ih]

/-- Claim C8: `get_user_or_session` yields exactly one identity — the
registered user with no session side effect when authenticated; with a
token and no stored session, a fresh row with `total_visits = 1` and
`first_seen_at = last_seen_at = now` is created and returned; with a stored
session, the stored row gets the storage-level visit increment and
`last_seen_at = now` (first_seen_at untouched) and is returned; with no
token, no actor and no side effect. -/
theorem getUserOrSession_spec (rows : List SessionRow) (req : RequestCtx) :
    (req.isAuthenticated = true →
      getUserOrSession rows req = (rows, Resolved.userActor req.userId)) ∧
    (req.isAuthenticated = false → req.sessionToken = none →
      getUserOrSession rows req = (rows, Resolved.noActor)) ∧
    (∀ tok, req.isAuthenticated = false → req.sessionToken = some tok →
      findSession tok rows = none →
      getUserOrSession rows req =
        (({ session_token := tok, fingerprint_hash := req.fingerprint,
            ip_address := req.ip, country := req.country, city := req.city,
            first_seen_at := req.now, last_seen_at := req.now,
            total_visits := 1 } : SessionRow) :: rows,
         Resolved.sessionActor
           { session_token := tok, fingerprint_hash := req.fingerprint,
             ip_address := req.ip, country := req.country, city := req.city,
             first_seen_at := req.now, last_seen_at := req.now,
             total_visits := 1 })) ∧
    (∀ tok r, req.isAuthenticated = false → req.sessionToken = some tok →
      findSession tok rows = some r →
      getUserOrSession rows req =
        (touchSession tok req.now rows,
         Resolved.sessionActor
           { r with total_visits := r.total_visits + 1,
                    last_seen_at := req.now })) := by
  refine ⟨fun h => ?_, fun h1 h2 => ?_, fun tok h1 h2 hfind => ?_,
    fun tok r h1 h2 hfind => ?_⟩
  · simp [getUserOrSession, h]
  · simp [getUserOrSession, trackAnonymousSession, h1, h2]
  · simp [getUserOrSession, trackAnonymousSession, h1, h2, hfind]
  · simp [getUserOrSession, trackAnonymousSession, h1, h2, hfind,
      findSession_touchSession]

/-- Witness for C8: tracking the token "tok" twice on the empty store — the
second request resolves to the same session with `total_visits = 2`,
`first_seen_at` kept at the first request's time and `last_seen_at` moved
to the second request's time. -/
theorem getUserOrSession_spec_witness :
    (getUserOrSession (getUserOrSession [] (demoReq (some "tok") false 5)).1
        (demoReq (some "tok") false 8)).2
      = Resolved.sessionActor
          { session_token := "tok", fingerprint_hash := "fp", ip_address := "ip",
            country := "UZ", city := "T", first_seen_at := 5, last_seen_at := 8,
            total_visits := 2 } := by
  have h2 := (getUserOrSession_spec
      (getUserOrSession [] (demoReq (some "tok") false 5)).1
      (demoReq (some "tok") false 8)).2.2.2 "tok"
    { session_token := "tok", fingerprint_hash := "fp", ip_address := "ip",
      country := "UZ", city := "T", first_seen_at := 5, last_seen_at := 5,
      total_visits := 1 } rfl rfl (by decide)
  rw [h2]
  decide

end Meteor
